import Mathlib

/-!
Shallow embedding of the EVS display HAL state machine
(`EvsDisplay.cpp`): display-state lifecycle, buffer acquire/return
arbitration, forced shutdown, and the two presentation backends
(compositor-proxy path guarded by `mDisplayProxy != nullptr`, and the
direct layer/buffer-pool path through the lower-level `IDisplay`
service).

External collaborators (the GL wrapper, the graphics allocator, the
`IDisplay` service) are modelled as oracle inputs: each operation takes
the results those collaborators would produce and returns the HAL
result, the successor state, and the list of side-effect events issued
to the collaborators.
-/

namespace Evs

/-- Display lifecycle states. The enum itself lives in the EVS HIDL
interface definition (external to these sources); the code treats the
value `NUM_STATES` (= 5) as the first invalid raw value, giving raw
encodings 0..4 for the five states below. -/
inductive EvsDisplayState where
  | NOT_OPEN
  | NOT_VISIBLE
  | VISIBLE_ON_NEXT_FRAME
  | VISIBLE
  | DEAD
  deriving DecidableEq, Repr

/-- Result codes returned by the HAL operations (subset of `EvsResult`
actually produced by `EvsDisplay.cpp`). -/
inductive EvsResult where
  | OK
  | INVALID_ARG
  | BUFFER_NOT_AVAILABLE
  | OWNERSHIP_LOST
  | UNDERLYING_SERVICE_ERROR
  deriving DecidableEq, Repr

/-- Raw value of `EvsDisplayState::NUM_STATES`, used by the
`state >= EvsDisplayState::NUM_STATES` validity check in
`setDisplayState`. -/
def NUM_STATES : Nat := 5

/-- Decoding of a raw (already validated, `< NUM_STATES`) state value. -/
def decodeState : Nat → EvsDisplayState
  | 0 => .NOT_OPEN
  | 1 => .NOT_VISIBLE
  | 2 => .VISIBLE_ON_NEXT_FRAME
  | 3 => .VISIBLE
  | _ => .DEAD

/-- `BufferDesc_1_0`: the buffer descriptor exchanged with the client.
`memHandle` is the opaque native handle, `none` standing for a null
handle; handles themselves are abstracted as naturals. -/
structure BufferDesc where
  width : Nat := 0
  height : Nat := 0
  format : Nat := 0
  usage : Nat := 0
  stride : Nat := 0
  bufferId : Nat := 0
  pixelSize : Nat := 0
  memHandle : Option Nat := none
  deriving DecidableEq, Repr

/-- Side effects issued to the external collaborators (GL wrapper,
proxy window, allocator, `IDisplay` service). -/
inductive Event where
  | showWindow
  | hideWindow
  | glInit
  | glShutdown
  | freeBuffer
  | updateTexture
  | renderImage
  | putLayer (layer : Int)
  | presentLayer (layer : Int) (slot : Nat)
  | releaseBuf (h : Nat)
  deriving DecidableEq, BEq, Repr

/-- `setDisplayState` (shared by both backends; the show/hide helpers
forward to the proxy window only when a proxy is present). Returns the
result, the committed state, and the events. Mirrors
`EvsDisplay::setDisplayState`. -/
def setDisplayStateCore (cur : EvsDisplayState) (raw : Nat) (hasProxy : Bool) :
    EvsResult × EvsDisplayState × List Event :=
  if cur = .DEAD then (.OWNERSHIP_LOST, cur, [])
  else if NUM_STATES ≤ raw then (.INVALID_ARG, cur, [])
  else
    let st := decodeState raw
    let evs : List Event :=
      match st with
      | .NOT_VISIBLE => if hasProxy then [Event.hideWindow] else []
      | .VISIBLE => if hasProxy then [Event.showWindow] else []
      | _ => []
    (.OK, st, evs)

/-! ## Proxy backend (`mDisplayProxy != nullptr`) -/

namespace Proxy

/-- Mutable state of the proxy-backed `EvsDisplay`: the requested
display state, the frame-busy flag, and the single render-target
descriptor `mBuffer` (whose `memHandle` is `none` until the lazy
allocation on first `getTargetBuffer`). -/
structure ProxyState where
  mRequestedState : EvsDisplayState := .NOT_VISIBLE
  mFrameBusy : Bool := false
  mBuffer : BufferDesc := {}
  deriving DecidableEq, Repr

/-- Oracle results of the external GL wrapper and allocator used by the
proxy path: whether `mGlWrapper.initialize` succeeds, the proxy-reported
window size, the allocation outcome (handle and stride), and whether
`mGlWrapper.updateImageTexture` succeeds. -/
structure GlEnv where
  initOk : Bool := true
  glWidth : Nat := 1280
  glHeight : Nat := 720
  allocRes : Option (Nat × Nat) := some (1, 1280)
  texOk : Bool := true
  deriving DecidableEq, Repr

/-- `HAL_PIXEL_FORMAT_RGBA_8888`. -/
def RGBA_8888 : Nat := 1

/-- `GRALLOC_USAGE_HW_RENDER | GRALLOC_USAGE_HW_COMPOSER |
GRALLOC_USAGE_HW_VIDEO_ENCODER`. -/
def PROXY_USAGE : Nat := 0x10a00

/-- `EvsDisplay::getDisplayState` (returns `mRequestedState` verbatim). -/
def getDisplayState (s : ProxyState) : EvsDisplayState :=
  s.mRequestedState

/-- `EvsDisplay::getTargetBuffer`, proxy branch. `none` models the empty
descriptor `{}` passed to the callback on rejection. -/
def getTargetBuffer (env : GlEnv) (s : ProxyState) :
    Option BufferDesc × ProxyState × List Event :=
  if s.mRequestedState = .DEAD then (none, s, [])
  else
    let step :
        Bool × ProxyState × List Event :=
      if s.mBuffer.memHandle = none then
        if env.initOk = false then (false, s, [Event.glInit])
        else
          match env.allocRes with
          | none => (false, s, [Event.glInit, Event.glShutdown])
          | some hs =>
            (true,
             { s with
                mBuffer :=
                  { width := env.glWidth, height := env.glHeight,
                    format := RGBA_8888, usage := PROXY_USAGE,
                    stride := hs.2, bufferId := 0x3870,
                    pixelSize := 4, memHandle := some hs.1 },
                mFrameBusy := false },
             [Event.glInit])
      else (true, s, [])
    match step with
    | (false, s1, evs) => (none, s1, evs)
    | (true, s1, evs) =>
      if s1.mFrameBusy then (none, s1, evs)
      else (some s1.mBuffer, { s1 with mFrameBusy := true }, evs)

/-- `EvsDisplay::returnTargetBufferForDisplay`, null-handle guard plus
the proxy branch. -/
def returnTargetBuffer (env : GlEnv) (s : ProxyState) (buffer : BufferDesc) :
    EvsResult × ProxyState × List Event :=
  if buffer.memHandle = none then (.INVALID_ARG, s, [])
  else if buffer.bufferId ≠ s.mBuffer.bufferId then (.INVALID_ARG, s, [])
  else if s.mFrameBusy = false then (.BUFFER_NOT_AVAILABLE, s, [])
  else
    let s1 : ProxyState := { s with mFrameBusy := false }
    if s1.mRequestedState = .DEAD then (.OWNERSHIP_LOST, s1, [])
    else
      let adv :
          ProxyState × List Event :=
        if s1.mRequestedState = .VISIBLE_ON_NEXT_FRAME then
          ({ s1 with mRequestedState := .VISIBLE }, [Event.showWindow])
        else (s1, [])
      let s2 := adv.1
      let evs := adv.2
      if s2.mRequestedState ≠ .VISIBLE then (.OK, s2, evs)
      else if env.texOk = false then
        (.UNDERLYING_SERVICE_ERROR, s2, evs ++ [Event.updateTexture])
      else (.OK, s2, evs ++ [Event.updateTexture, Event.renderImage])

/-- `EvsDisplay::forceShutdown`, proxy branch: frees the render target
(if allocated), hides the window and shuts down GL, then unconditionally
commits `DEAD`. -/
def forceShutdown (s : ProxyState) : ProxyState × List Event :=
  if s.mBuffer.memHandle ≠ none then
    ({ s with
        mBuffer := { s.mBuffer with memHandle := none },
        mRequestedState := .DEAD },
     [Event.freeBuffer, Event.hideWindow, Event.glShutdown])
  else ({ s with mRequestedState := .DEAD }, [])

end Proxy

/-! ## Direct layer/buffer-pool backend (`mDisplayProxy == nullptr`) -/

namespace Direct

/-- Modelled from the spec: `DISPLAY_BUFFER_NUM` is defined in
`EvsDisplay.h`, which is not among the sources; the spec's buffer-pool
scenario fixes the pool size at 3 slots. -/
def DISPLAY_BUFFER_NUM : Nat := 3

/-- Mutable state of the direct-layer `EvsDisplay`: the requested
display state, whether the `IDisplay` service handle `mDisplay` has been
acquired, the hardware layer id `mLayer` (`-1` is the invalid sentinel
written back by `forceShutdown`), and the fixed pool `mBuffers` of
`DISPLAY_BUFFER_NUM` slots (`none` models a null slot). Pool handles
are abstracted as naturals. -/
structure DirectState where
  mRequestedState : EvsDisplayState := .NOT_VISIBLE
  mDisplayConn : Bool := false
  mLayer : Int := 0
  mBuffers : List (Option Nat) := List.replicate DISPLAY_BUFFER_NUM none
  deriving DecidableEq, Repr

/-- One probe of the `IDisplay::getService` retry loop in
`EvsDisplay::getDisplay`: `avail i` tells whether the service is
registered at the i-th poll. The loop in the source has no exit other
than the service appearing, so it is modelled with explicit fuel: the
result is the first poll index on which the service answered, if that
happens within `fuel` iterations. -/
def serviceRetryAux (avail : Nat → Bool) (i : Nat) : Nat → Option Nat
  | 0 => none
  | fuel + 1 => if avail i then some i else serviceRetryAux avail (i + 1) fuel

/-- The `while (display.get() == nullptr)` retry loop of
`EvsDisplay::getDisplay`, run for at most `fuel` polls. -/
def serviceRetry (avail : Nat → Bool) (fuel : Nat) : Option Nat :=
  serviceRetryAux avail 0 fuel

/-- `EvsDisplay::getDisplay`, the part after the service has answered:
if `mDisplay` is already set, return it; otherwise ask the service for
a layer (`layerRes` is the oracle result of `IDisplay::getLayer`) and on
success record the connection and the layer id. Returns the updated
state and whether a display handle is available. -/
def getDisplay (layerRes : Option Nat) (s : DirectState) :
    DirectState × Bool :=
  if s.mDisplayConn then (s, true)
  else
    match layerRes with
    | none => (s, false)
    | some l => ({ s with mDisplayConn := true, mLayer := (l : Int) }, true)

/-- `EvsDisplay::getDisplayState` (shared with the proxy path). -/
def getDisplayState (s : DirectState) : EvsDisplayState :=
  s.mRequestedState

/-- Width/height the no-proxy constructor fixes for the pool buffers. -/
def DISPLAY_WIDTH : Nat := 1280

/-- Height counterpart of `DISPLAY_WIDTH`. -/
def DISPLAY_HEIGHT : Nat := 720

/-- `fsl::USAGE_HW_TEXTURE | fsl::USAGE_HW_RENDER |
fsl::USAGE_HW_VIDEO_ENCODER`, the usage the pool is allocated with. -/
def DIRECT_USAGE : Nat := 0x10300

/-- `EvsDisplay::getTargetBuffer`, direct branch: reject when `DEAD`,
acquire the display (oracle `layerRes`), ask the service for a free slot
(oracle `slotRes` is the result of `IDisplay::getSlot`), and hand out
the pool buffer at that slot with `bufferId := slot`. There is no
frame-busy bookkeeping on this path. The descriptor's geometry fields
come from the pool buffer, which the constructor allocated at the fixed
resolution (the stride reported by the gralloc driver is modelled by the
allocation width). -/
def getTargetBuffer (layerRes : Option Nat) (slotRes : Option Nat)
    (s : DirectState) : Option BufferDesc × DirectState × List Event :=
  if s.mRequestedState = .DEAD then (none, s, [])
  else
    let gd := getDisplay layerRes s
    let s1 := gd.1
    if gd.2 = false then (none, s1, [])
    else
      match slotRes with
      | none => (none, s1, [])
      | some slot =>
        match s1.mBuffers.getD slot none with
        | none => (none, s1, [])
        | some h =>
          (some { width := DISPLAY_WIDTH, height := DISPLAY_HEIGHT,
                  stride := DISPLAY_WIDTH, format := Proxy.RGBA_8888,
                  usage := DIRECT_USAGE, bufferId := slot,
                  pixelSize := 4, memHandle := some h },
           s1, [])

/-- `EvsDisplay::returnTargetBufferForDisplay`, null-handle guard plus
the direct branch: ids at or beyond `DISPLAY_BUFFER_NUM` are invalid, a
null pool slot is invalid; otherwise the buffer is submitted to the
layer via `presentLayer` whenever a display handle exists — before any
state check — and only then the `DEAD` / `VISIBLE_ON_NEXT_FRAME` state
logic runs. -/
def returnTargetBuffer (layerRes : Option Nat) (s : DirectState)
    (buffer : BufferDesc) : EvsResult × DirectState × List Event :=
  if buffer.memHandle = none then (.INVALID_ARG, s, [])
  else if DISPLAY_BUFFER_NUM ≤ buffer.bufferId then (.INVALID_ARG, s, [])
  else
    let gd := getDisplay layerRes s
    let s1 := gd.1
    let state := s1.mRequestedState
    match s1.mBuffers.getD buffer.bufferId none with
    | none => (.INVALID_ARG, s1, [])
    | some _h =>
      let evs : List Event :=
        if s1.mDisplayConn then [Event.presentLayer s1.mLayer buffer.bufferId]
        else []
      if state = .DEAD then (.OWNERSHIP_LOST, s1, evs)
      else if state = .VISIBLE_ON_NEXT_FRAME then
        (.OK, { s1 with mRequestedState := .VISIBLE }, evs)
      else (.OK, s1, evs)

/-- `EvsDisplay::forceShutdown`, direct branch: (re)acquires the display
via `getDisplay`, reads and invalidates `mLayer`, calls `putLayer` on
the display if one exists, releases every non-null pool slot, and
commits `DEAD`. -/
def forceShutdown (layerRes : Option Nat) (s : DirectState) :
    DirectState × List Event :=
  let gd := getDisplay layerRes s
  let s1 := gd.1
  let layer := s1.mLayer
  let putEvs : List Event :=
    if s1.mDisplayConn then [Event.putLayer layer] else []
  let relEvs : List Event := (s1.mBuffers.filterMap id).map Event.releaseBuf
  ({ s1 with
      mLayer := -1,
      mBuffers := List.replicate DISPLAY_BUFFER_NUM none,
      mRequestedState := .DEAD },
   putEvs ++ relEvs)

end Direct

/-! ## Helper lemmas -/

/-- `getDisplay` never touches the requested state or the buffer pool. -/
theorem getDisplay_preserves (lr : Option Nat) (s : Direct.DirectState) :
    (Direct.getDisplay lr s).1.mRequestedState = s.mRequestedState ∧
    (Direct.getDisplay lr s).1.mBuffers = s.mBuffers := by
  rcases lr with _ | l <;> by_cases h : s.mDisplayConn <;>
    simp [Direct.getDisplay, h]

/-- A ready proxy state (not dead, not busy, buffer allocated) hands the
render target out and marks the frame busy. -/
theorem getTargetBuffer_ready (env : Proxy.GlEnv) (s : Proxy.ProxyState) (h : Nat)
    (hdead : s.mRequestedState ≠ .DEAD) (hbusy : s.mFrameBusy = false)
    (hbuf : s.mBuffer.memHandle = some h) :
    Proxy.getTargetBuffer env s =
      (some s.mBuffer, { s with mFrameBusy := true }, []) := by
  simp [Proxy.getTargetBuffer, hdead, hbusy, hbuf]

/-- A matching return while `VISIBLE_ON_NEXT_FRAME` clears the busy flag,
advances to `VISIBLE`, shows the window and presents. -/
theorem returnTargetBuffer_vonf (env : Proxy.GlEnv) (s : Proxy.ProxyState)
    (b : BufferDesc) (hh : b.memHandle ≠ none)
    (hid : b.bufferId = s.mBuffer.bufferId) (hbusy : s.mFrameBusy = true)
    (hst : s.mRequestedState = .VISIBLE_ON_NEXT_FRAME) (htex : env.texOk = true) :
    Proxy.returnTargetBuffer env s b =
      (.OK, { s with mFrameBusy := false, mRequestedState := .VISIBLE },
       [Event.showWindow, Event.updateTexture, Event.renderImage]) := by
  simp [Proxy.returnTargetBuffer, hh, hid, hbusy, hst, htex]

/-- A matching return while already `VISIBLE` presents without showing
the window again. -/
theorem returnTargetBuffer_visible (env : Proxy.GlEnv) (s : Proxy.ProxyState)
    (b : BufferDesc) (hh : b.memHandle ≠ none)
    (hid : b.bufferId = s.mBuffer.bufferId) (hbusy : s.mFrameBusy = true)
    (hst : s.mRequestedState = .VISIBLE) (htex : env.texOk = true) :
    Proxy.returnTargetBuffer env s b =
      (.OK, { s with mFrameBusy := false },
       [Event.updateTexture, Event.renderImage]) := by
  simp [Proxy.returnTargetBuffer, hh, hid, hbusy, hst, htex]

/-- `forceShutdown` on the direct path always leaves an all-null pool. -/
theorem forceShutdown_mBuffers (lr : Option Nat) (s : Direct.DirectState) :
    (Direct.forceShutdown lr s).1.mBuffers =
      List.replicate Direct.DISPLAY_BUFFER_NUM none := by
  simp [Direct.forceShutdown]

/-- `forceShutdown` on a state whose pool is already all-null releases
nothing. -/
theorem forceShutdown_no_release_of_empty (lr : Option Nat)
    (s : Direct.DirectState)
    (hb : s.mBuffers = List.replicate Direct.DISPLAY_BUFFER_NUM none)
    (h : Nat) : Event.releaseBuf h ∉ (Direct.forceShutdown lr s).2 := by
  rcases lr with _ | l <;> by_cases hc : s.mDisplayConn <;>
    simp [Direct.forceShutdown, Direct.getDisplay, hc, hb,
          Direct.DISPLAY_BUFFER_NUM, List.replicate]

/-- The unbounded `getService` poll, one step at a time: with the service
never registered, every amount of fuel is exhausted. -/
theorem serviceRetryAux_never (i fuel : Nat) :
    Direct.serviceRetryAux (fun _ => false) i fuel = none := by
  induction fuel generalizing i with
  | zero => rfl
  | succ n ih => simp [Direct.serviceRetryAux, ih]

/-! ## Claims -/

/-- C9: the `IDisplay::getService` retry loop in `EvsDisplay::getDisplay`
is an unbounded busy loop: if the service never becomes available, no
finite number of poll iterations makes the loop exit, so the call never
returns — there is no caller-visible cancellation or retry bound. -/
theorem c9_retry_loop_unbounded :
    ∀ fuel, Direct.serviceRetry (fun _ => false) fuel = none := by
  intro fuel
  exact serviceRetryAux_never 0 fuel

/-- C10: a `returnTargetBufferForDisplay` call with a null native handle
is rejected with `INVALID_ARG` before any ownership or state check, on
both backends: the result is `INVALID_ARG` even in the `DEAD` state, the
machine state (including the frame-busy flag) is unchanged, and no
side-effect event is issued. -/
theorem c10_null_handle_rejected_first (env : Proxy.GlEnv)
    (s : Proxy.ProxyState) (ds : Direct.DirectState) (lr : Option Nat)
    (buffer : BufferDesc) (hh : buffer.memHandle = none) :
    Proxy.returnTargetBuffer env s buffer = (.INVALID_ARG, s, []) ∧
    Direct.returnTargetBuffer lr ds buffer = (.INVALID_ARG, ds, []) := by
  constructor <;> simp [Proxy.returnTargetBuffer, Direct.returnTargetBuffer, hh]

/-- C10 witness: a null-handle return on concrete `DEAD` states of both
backends yields `INVALID_ARG` and changes nothing. -/
theorem c10_witness :
    Proxy.returnTargetBuffer {} { mRequestedState := .DEAD, mFrameBusy := true }
        { memHandle := none } =
      (.INVALID_ARG, { mRequestedState := .DEAD, mFrameBusy := true }, []) ∧
    Direct.returnTargetBuffer none { mRequestedState := .DEAD }
        { memHandle := none } =
      (.INVALID_ARG, { mRequestedState := .DEAD }, []) :=
  c10_null_handle_rejected_first {} { mRequestedState := .DEAD, mFrameBusy := true }
    { mRequestedState := .DEAD } none { memHandle := none } rfl

/-- C4: a returned descriptor whose identifier was never issued is
rejected with `INVALID_ARG`: on the proxy path any id differing from the
outstanding descriptor's id, on the direct path any id at or beyond the
pool size. -/
theorem c4_unissued_id_rejected (env : Proxy.GlEnv) (s : Proxy.ProxyState)
    (ds : Direct.DirectState) (lr : Option Nat) (b bd : BufferDesc)
    (hp : b.bufferId ≠ s.mBuffer.bufferId)
    (hd : Direct.DISPLAY_BUFFER_NUM ≤ bd.bufferId) :
    (Proxy.returnTargetBuffer env s b).1 = .INVALID_ARG ∧
    (Direct.returnTargetBuffer lr ds bd).1 = .INVALID_ARG := by
  constructor
  · by_cases hh : b.memHandle = none <;>
      simp [Proxy.returnTargetBuffer, hh, hp]
  · by_cases hh : bd.memHandle = none <;>
      simp [Direct.returnTargetBuffer, hh, hd]

/-- C4 witness: returning id 7 while the proxy's outstanding id is
0x3870, and id 5 on a 3-slot direct pool, both yield `INVALID_ARG`. -/
theorem c4_witness :
    (Proxy.returnTargetBuffer {}
        { mBuffer := { bufferId := 0x3870, memHandle := some 1 }, mFrameBusy := true }
        { bufferId := 7, memHandle := some 1 }).1 = .INVALID_ARG ∧
    (Direct.returnTargetBuffer none
        { mBuffers := [some 1, some 2, some 3] }
        { bufferId := 5, memHandle := some 1 }).1 = .INVALID_ARG :=
  c4_unissued_id_rejected {}
    { mBuffer := { bufferId := 0x3870, memHandle := some 1 }, mFrameBusy := true }
    { mBuffers := [some 1, some 2, some 3] } none
    { bufferId := 7, memHandle := some 1 }
    { bufferId := 5, memHandle := some 1 }
    (by decide) (by decide)

/-- C7: a matching return while a frame is outstanding and the state is
`DEAD` yields `OWNERSHIP_LOST`, yet the frame-busy flag is still
cleared — the outstanding-frame record does not survive the error
return, and the state stays `DEAD`. -/
theorem c7_dead_return_clears_busy (env : Proxy.GlEnv) (s : Proxy.ProxyState)
    (b : BufferDesc) (hdead : s.mRequestedState = .DEAD)
    (hbusy : s.mFrameBusy = true) (hh : b.memHandle ≠ none)
    (hid : b.bufferId = s.mBuffer.bufferId) :
    Proxy.returnTargetBuffer env s b =
      (.OWNERSHIP_LOST, { s with mFrameBusy := false }, []) := by
  simp [Proxy.returnTargetBuffer, hh, hid, hbusy, hdead]

/-- C7 witness: a concrete matching return in `DEAD` with a busy frame
yields `OWNERSHIP_LOST` with the busy flag cleared. -/
theorem c7_witness :
    Proxy.returnTargetBuffer {}
        { mRequestedState := .DEAD, mFrameBusy := true,
          mBuffer := { bufferId := 0x3870, memHandle := some 4 } }
        { bufferId := 0x3870, memHandle := some 4 } =
      (.OWNERSHIP_LOST,
       { mRequestedState := .DEAD, mFrameBusy := false,
         mBuffer := { bufferId := 0x3870, memHandle := some 4 } }, []) :=
  c7_dead_return_clears_busy {}
    { mRequestedState := .DEAD, mFrameBusy := true,
      mBuffer := { bufferId := 0x3870, memHandle := some 4 } }
    { bufferId := 0x3870, memHandle := some 4 }
    rfl rfl (by decide) rfl

/-- C5 counterexample: on the direct-layer backend there is no
outstanding-frame bookkeeping at all, so a well-formed return with no
frame outstanding — here two returns in a row with only pool buffers and
no acquire — is accepted with `OK` twice, not rejected with
`BUFFER_NOT_AVAILABLE` as the claim states for both backends. -/
theorem c5_direct_double_return_accepted :
    (Direct.returnTargetBuffer none
        { mRequestedState := .VISIBLE, mDisplayConn := true, mLayer := 3,
          mBuffers := [some 20, some 21, some 22] }
        { bufferId := 0, memHandle := some 20 }).1 = .OK ∧
    (Direct.returnTargetBuffer none
        (Direct.returnTargetBuffer none
          { mRequestedState := .VISIBLE, mDisplayConn := true, mLayer := 3,
            mBuffers := [some 20, some 21, some 22] }
          { bufferId := 0, memHandle := some 20 }).2.1
        { bufferId := 0, memHandle := some 20 }).1 = .OK := by
  decide

/-- C5 amended: only the proxy backend protects against double returns —
a well-formed matching return while no frame is outstanding yields
`BUFFER_NOT_AVAILABLE` there and changes nothing; the direct-layer
backend tracks no outstanding frame and accepts spurious returns. -/
theorem c5_proxy_double_return_rejected (env : Proxy.GlEnv)
    (s : Proxy.ProxyState) (b : BufferDesc) (hbusy : s.mFrameBusy = false)
    (hh : b.memHandle ≠ none) (hid : b.bufferId = s.mBuffer.bufferId) :
    Proxy.returnTargetBuffer env s b = (.BUFFER_NOT_AVAILABLE, s, []) := by
  simp [Proxy.returnTargetBuffer, hh, hid, hbusy]

/-- C5 witness: a concrete matching return with no outstanding frame on
the proxy path yields `BUFFER_NOT_AVAILABLE`. -/
theorem c5_witness :
    Proxy.returnTargetBuffer {}
        { mRequestedState := .VISIBLE,
          mBuffer := { bufferId := 0x3870, memHandle := some 2 } }
        { bufferId := 0x3870, memHandle := some 2 } =
      (.BUFFER_NOT_AVAILABLE,
       { mRequestedState := .VISIBLE,
         mBuffer := { bufferId := 0x3870, memHandle := some 2 } }, []) :=
  c5_proxy_double_return_rejected {}
    { mRequestedState := .VISIBLE,
      mBuffer := { bufferId := 0x3870, memHandle := some 2 } }
    { bufferId := 0x3870, memHandle := some 2 }
    rfl (by decide) rfl

/-- C2 counterexample: the direct-layer backend performs no
double-acquire check — starting from a connected pool state, two
`getTargetBuffer` calls in a row (no return in between) both hand out a
buffer, instead of the second one failing with the empty descriptor. -/
theorem c2_direct_double_acquire_succeeds :
    (Direct.getTargetBuffer none (some 0)
        { mRequestedState := .VISIBLE, mDisplayConn := true, mLayer := 1,
          mBuffers := [some 10, some 11, some 12] }).1.isSome = true ∧
    (Direct.getTargetBuffer none (some 0)
        (Direct.getTargetBuffer none (some 0)
          { mRequestedState := .VISIBLE, mDisplayConn := true, mLayer := 1,
            mBuffers := [some 10, some 11, some 12] }).2.1).1.isSome = true := by
  decide

/-- C2 amended: the at-most-one-outstanding guarantee holds on the proxy
backend only: while a frame is outstanding a further `getTargetBuffer`
yields the empty descriptor and changes nothing, and any successful
acquire leaves the machine frame-busy. The direct-layer backend performs
no such check and delegates slot arbitration to the display service. -/
theorem c2_proxy_single_outstanding (env : Proxy.GlEnv) (s : Proxy.ProxyState)
    (hbusy : s.mFrameBusy = true) (halloc : s.mBuffer.memHandle ≠ none) :
    (Proxy.getTargetBuffer env s).1 = none ∧
    (Proxy.getTargetBuffer env s).2.1 = s ∧
    ∀ s2 d, (Proxy.getTargetBuffer env s2).1 = some d →
      (Proxy.getTargetBuffer env s2).2.1.mFrameBusy = true := by
  refine ⟨?_, ?_, ?_⟩
  · by_cases hdead : s.mRequestedState = .DEAD <;>
      simp [Proxy.getTargetBuffer, hdead, hbusy, halloc]
  · by_cases hdead : s.mRequestedState = .DEAD <;>
      simp [Proxy.getTargetBuffer, hdead, hbusy, halloc]
  · intro s2 d
    by_cases hdead : s2.mRequestedState = .DEAD
    · simp [Proxy.getTargetBuffer, hdead]
    · by_cases hbuf : s2.mBuffer.memHandle = none
      · rcases ha : env.allocRes with _ | hs <;>
          by_cases hinit : env.initOk = false <;>
            simp [Proxy.getTargetBuffer, hdead, hbuf, hinit, ha]
      · by_cases hb2 : s2.mFrameBusy <;>
          simp [Proxy.getTargetBuffer, hdead, hbuf, hb2]

/-- C2 witness: a busy proxy state rejects a second acquire with the
empty descriptor and is left unchanged. -/
theorem c2_witness :
    (Proxy.getTargetBuffer {}
        { mRequestedState := .VISIBLE, mFrameBusy := true,
          mBuffer := { bufferId := 0x3870, memHandle := some 6 } }).1 = none ∧
    (Proxy.getTargetBuffer {}
        { mRequestedState := .VISIBLE, mFrameBusy := true,
          mBuffer := { bufferId := 0x3870, memHandle := some 6 } }).2.1 =
      { mRequestedState := .VISIBLE, mFrameBusy := true,
        mBuffer := { bufferId := 0x3870, memHandle := some 6 } } ∧
    ∀ s2 d, (Proxy.getTargetBuffer {} s2).1 = some d →
      (Proxy.getTargetBuffer {} s2).2.1.mFrameBusy = true :=
  c2_proxy_single_outstanding {}
    { mRequestedState := .VISIBLE, mFrameBusy := true,
      mBuffer := { bufferId := 0x3870, memHandle := some 6 } }
    rfl (by decide)

/-- C3 counterexample: on the direct-layer backend the buffer is
submitted to the hardware layer via `presentLayer` before any state
check, so a return while `NOT_VISIBLE` still presents (and is accepted
with `OK`), contradicting the claim that the backend presents only when
the state is `VISIBLE`. -/
theorem c3_direct_presents_while_not_visible :
    (Direct.returnTargetBuffer none
        { mRequestedState := .NOT_VISIBLE, mDisplayConn := true, mLayer := 2,
          mBuffers := [some 10, some 11, some 12] }
        { bufferId := 1, memHandle := some 11 }).1 = .OK ∧
    (Direct.returnTargetBuffer none
        { mRequestedState := .NOT_VISIBLE, mDisplayConn := true, mLayer := 2,
          mBuffers := [some 10, some 11, some 12] }
        { bufferId := 1, memHandle := some 11 }).2.2 =
      [Event.presentLayer 2 1] := by
  decide

/-- C3 amended: presenting only when `VISIBLE` holds on the proxy
backend: a matching return while `NOT_VISIBLE` is accepted with `OK`,
changes only the busy flag and performs no side effect at all, while a
matching return while `VISIBLE` uploads the texture and renders. The
direct-layer backend instead calls `presentLayer` on every valid return
regardless of the state. -/
theorem c3_proxy_presents_only_when_visible (env : Proxy.GlEnv)
    (s : Proxy.ProxyState) (b : BufferDesc) (hh : b.memHandle ≠ none)
    (hid : b.bufferId = s.mBuffer.bufferId) (hbusy : s.mFrameBusy = true) :
    (s.mRequestedState = .NOT_VISIBLE →
      Proxy.returnTargetBuffer env s b = (.OK, { s with mFrameBusy := false }, [])) ∧
    (s.mRequestedState = .VISIBLE → env.texOk = true →
      (Proxy.returnTargetBuffer env s b).2.2 =
        [Event.updateTexture, Event.renderImage]) := by
  constructor
  · intro hst
    simp [Proxy.returnTargetBuffer, hh, hid, hbusy, hst]
  · intro hst htex
    simp [Proxy.returnTargetBuffer, hh, hid, hbusy, hst, htex]

/-- C3 witness: concrete matching returns while `NOT_VISIBLE` (accepted,
no present) and the `VISIBLE` hypothesis instantiated vacuously. -/
theorem c3_witness :
    Proxy.returnTargetBuffer {}
        { mRequestedState := .NOT_VISIBLE, mFrameBusy := true,
          mBuffer := { bufferId := 0x3870, memHandle := some 8 } }
        { bufferId := 0x3870, memHandle := some 8 } =
      (.OK,
       { mRequestedState := .NOT_VISIBLE, mFrameBusy := false,
         mBuffer := { bufferId := 0x3870, memHandle := some 8 } }, []) :=
  (c3_proxy_presents_only_when_visible {}
    { mRequestedState := .NOT_VISIBLE, mFrameBusy := true,
      mBuffer := { bufferId := 0x3870, memHandle := some 8 } }
    { bufferId := 0x3870, memHandle := some 8 }
    (by decide) rfl rfl).1 rfl

/-- C6: starting from `VISIBLE_ON_NEXT_FRAME` with the render target
allocated and no frame outstanding, one acquire hands out the target,
the matching return succeeds, leaves the state `VISIBLE` and the
acquire/return pair issues exactly one `showWindow` call; a second
acquire/return cycle while already `VISIBLE` succeeds without any
further `showWindow` call. -/
theorem c6_vonf_cycle_single_show (env : Proxy.GlEnv) (s : Proxy.ProxyState)
    (h : Nat) (hst : s.mRequestedState = .VISIBLE_ON_NEXT_FRAME)
    (hbusy : s.mFrameBusy = false) (hbuf : s.mBuffer.memHandle = some h)
    (htex : env.texOk = true) :
    (Proxy.getTargetBuffer env s).1 = some s.mBuffer ∧
    (Proxy.returnTargetBuffer env (Proxy.getTargetBuffer env s).2.1
        s.mBuffer).1 = .OK ∧
    (Proxy.returnTargetBuffer env (Proxy.getTargetBuffer env s).2.1
        s.mBuffer).2.1.mRequestedState = .VISIBLE ∧
    ((Proxy.getTargetBuffer env s).2.2 ++
        (Proxy.returnTargetBuffer env (Proxy.getTargetBuffer env s).2.1
          s.mBuffer).2.2).count Event.showWindow = 1 ∧
    (Proxy.getTargetBuffer env
        (Proxy.returnTargetBuffer env (Proxy.getTargetBuffer env s).2.1
          s.mBuffer).2.1).1 = some s.mBuffer ∧
    (Proxy.returnTargetBuffer env
        (Proxy.getTargetBuffer env
          (Proxy.returnTargetBuffer env (Proxy.getTargetBuffer env s).2.1
            s.mBuffer).2.1).2.1 s.mBuffer).1 = .OK ∧
    ((Proxy.getTargetBuffer env
        (Proxy.returnTargetBuffer env (Proxy.getTargetBuffer env s).2.1
          s.mBuffer).2.1).2.2 ++
      (Proxy.returnTargetBuffer env
        (Proxy.getTargetBuffer env
          (Proxy.returnTargetBuffer env (Proxy.getTargetBuffer env s).2.1
            s.mBuffer).2.1).2.1 s.mBuffer).2.2).count Event.showWindow = 0 := by
  rcases s with ⟨st, busy, buf⟩
  rcases buf with ⟨w1, h1, f1, u1, d1, b1, p1, m1⟩
  obtain rfl : st = .VISIBLE_ON_NEXT_FRAME := hst
  obtain rfl : busy = false := hbusy
  obtain rfl : m1 = some h := hbuf
  rcases env with ⟨iok, gw, gh, ar, tok⟩
  obtain rfl : tok = true := htex
  simp [Proxy.getTargetBuffer, Proxy.returnTargetBuffer, List.count_cons]
  decide

/-- C6 witness: the acquire/return cycle on a concrete
`VISIBLE_ON_NEXT_FRAME` state issues exactly one `showWindow` call. -/
theorem c6_witness :
    ((Proxy.getTargetBuffer {}
        { mRequestedState := .VISIBLE_ON_NEXT_FRAME,
          mBuffer := { bufferId := 0x3870, memHandle := some 9 } }).2.2 ++
      (Proxy.returnTargetBuffer {}
        (Proxy.getTargetBuffer {}
          { mRequestedState := .VISIBLE_ON_NEXT_FRAME,
            mBuffer := { bufferId := 0x3870, memHandle := some 9 } }).2.1
        (({ mRequestedState := .VISIBLE_ON_NEXT_FRAME,
            mBuffer := { bufferId := 0x3870, memHandle := some 9 } } :
            Proxy.ProxyState)).mBuffer).2.2).count Event.showWindow = 1 :=
  (c6_vonf_cycle_single_show {}
    { mRequestedState := .VISIBLE_ON_NEXT_FRAME,
      mBuffer := { bufferId := 0x3870, memHandle := some 9 } }
    9 rfl rfl rfl rfl).2.2.2.1

/-- C8 counterexample: on the direct-layer backend a second
`forceShutdown` in a row is not a no-op — the layer id was already
invalidated to `-1` by the first call, yet `putLayer` is issued again
with that sentinel value. -/
theorem c8_second_shutdown_reissues_putlayer :
    (Direct.forceShutdown none
        (Direct.forceShutdown none
          { mRequestedState := .VISIBLE, mDisplayConn := true, mLayer := 5,
            mBuffers := [some 1, some 2, some 3] }).1).2 =
      [Event.putLayer (-1)] := by
  decide

/-- C8 amended: a second `forceShutdown` in a row frees no buffer that
the first call already freed and leaves the state `DEAD`; on the proxy
backend it is a complete no-op, while on the direct-layer backend it
still re-issues `putLayer` with the already-invalidated layer id `-1`. -/
theorem c8_second_shutdown_no_double_free (s : Proxy.ProxyState)
    (ds : Direct.DirectState) (lr1 lr2 : Option Nat) :
    Proxy.forceShutdown (Proxy.forceShutdown s).1 =
      ((Proxy.forceShutdown s).1, []) ∧
    (Direct.forceShutdown lr2
        (Direct.forceShutdown lr1 ds).1).1.mRequestedState = .DEAD ∧
    (Direct.forceShutdown lr2 (Direct.forceShutdown lr1 ds).1).1.mBuffers =
      (Direct.forceShutdown lr1 ds).1.mBuffers ∧
    ∀ h, Event.releaseBuf h ∉
      (Direct.forceShutdown lr2 (Direct.forceShutdown lr1 ds).1).2 := by
  refine ⟨?_, ?_, ?_, ?_⟩
  · rcases s with ⟨st, busy, buf⟩
    by_cases hb : buf.memHandle = none <;>
      simp [Proxy.forceShutdown, hb]
  · simp [Direct.forceShutdown]
  · rcases lr2 with _ | l <;>
      simp [Direct.forceShutdown, Direct.getDisplay]
  · intro hdl
    exact forceShutdown_no_release_of_empty lr2 _
      (forceShutdown_mBuffers lr1 ds) hdl

/-- C1 counterexample: after `forceShutdown` on the proxy backend (here
from a `VISIBLE` state whose render target was allocated and not
outstanding) a `returnTargetBufferForDisplay` with the previously issued
descriptor yields `BUFFER_NOT_AVAILABLE`, not `OWNERSHIP_LOST` as the
claim states for every return in the `DEAD` state. -/
theorem c1_dead_return_not_ownership_lost :
    (Proxy.returnTargetBuffer {}
        (Proxy.forceShutdown
          { mRequestedState := .VISIBLE, mFrameBusy := false,
            mBuffer := { bufferId := 0x3870, memHandle := some 7 } }).1
        { bufferId := 0x3870, memHandle := some 7 }).1 =
      .BUFFER_NOT_AVAILABLE := by
  decide

/-- C1 amended: `DEAD` is terminal and absorbing. In the `DEAD` state
`setDisplayState` yields `OWNERSHIP_LOST` and leaves the state `DEAD`,
`getDisplayState` reports `DEAD`, `getTargetBuffer` yields the empty
descriptor on both backends without touching the state, `forceShutdown`
keeps the state `DEAD`, and `returnTargetBufferForDisplay` never
succeeds and leaves the state `DEAD` — but its result is
`OWNERSHIP_LOST` only when the descriptor passes the preceding
null-handle, id and outstanding-frame checks; otherwise it is
`INVALID_ARG` or `BUFFER_NOT_AVAILABLE`. -/
theorem c1_dead_absorbing (env : Proxy.GlEnv) (raw : Nat) (hasProxy : Bool)
    (s : Proxy.ProxyState) (ds : Direct.DirectState)
    (lr slotRes : Option Nat) (b : BufferDesc)
    (hs : s.mRequestedState = .DEAD) (hds : ds.mRequestedState = .DEAD) :
    (setDisplayStateCore s.mRequestedState raw hasProxy).1 = .OWNERSHIP_LOST ∧
    (setDisplayStateCore s.mRequestedState raw hasProxy).2.1 = .DEAD ∧
    Proxy.getDisplayState s = .DEAD ∧
    Direct.getDisplayState ds = .DEAD ∧
    Proxy.getTargetBuffer env s = (none, s, []) ∧
    (Proxy.returnTargetBuffer env s b).2.1.mRequestedState = .DEAD ∧
    ((Proxy.returnTargetBuffer env s b).1 = .INVALID_ARG ∨
     (Proxy.returnTargetBuffer env s b).1 = .BUFFER_NOT_AVAILABLE ∨
     (Proxy.returnTargetBuffer env s b).1 = .OWNERSHIP_LOST) ∧
    Direct.getTargetBuffer lr slotRes ds = (none, ds, []) ∧
    (Direct.returnTargetBuffer lr ds b).2.1.mRequestedState = .DEAD ∧
    ((Direct.returnTargetBuffer lr ds b).1 = .INVALID_ARG ∨
     (Direct.returnTargetBuffer lr ds b).1 = .OWNERSHIP_LOST) ∧
    (Proxy.forceShutdown s).1.mRequestedState = .DEAD ∧
    (Direct.forceShutdown lr ds).1.mRequestedState = .DEAD := by
  refine ⟨?_, ?_, hs, hds, ?_, ?_, ?_, ?_, ?_, ?_, ?_, ?_⟩
  · simp [setDisplayStateCore, hs]
  · simp [setDisplayStateCore, hs]
  · simp [Proxy.getTargetBuffer, hs]
  · by_cases hh : b.memHandle = none <;>
      by_cases hid : b.bufferId = s.mBuffer.bufferId <;>
        by_cases hbz : s.mFrameBusy = false <;>
          simp [Proxy.returnTargetBuffer, hh, hid, hbz, hs]
  · by_cases hh : b.memHandle = none <;>
      by_cases hid : b.bufferId = s.mBuffer.bufferId <;>
        by_cases hbz : s.mFrameBusy = false <;>
          simp [Proxy.returnTargetBuffer, hh, hid, hbz, hs]
  · simp [Direct.getTargetBuffer, hds]
  · rcases ds with ⟨dst, conn, lay, bufs⟩
    obtain rfl : dst = .DEAD := hds
    by_cases hh : b.memHandle = none <;>
      by_cases hd : Direct.DISPLAY_BUFFER_NUM ≤ b.bufferId <;>
        rcases lr with _ | l <;>
          by_cases hc : conn = true <;>
            rcases hm : bufs[b.bufferId]?.getD none with _ | v <;>
              simp [Direct.returnTargetBuffer, Direct.getDisplay,
                    hh, hd, hc, hm]
  · rcases ds with ⟨dst, conn, lay, bufs⟩
    obtain rfl : dst = .DEAD := hds
    by_cases hh : b.memHandle = none <;>
      by_cases hd : Direct.DISPLAY_BUFFER_NUM ≤ b.bufferId <;>
        rcases lr with _ | l <;>
          by_cases hc : conn = true <;>
            rcases hm : bufs[b.bufferId]?.getD none with _ | v <;>
              simp [Direct.returnTargetBuffer, Direct.getDisplay,
                    hh, hd, hc, hm]
  · by_cases hb : s.mBuffer.memHandle = none <;>
      simp [Proxy.forceShutdown, hb]
  · simp [Direct.forceShutdown]

/-- C1 witness: the amended `DEAD`-absorbing property instantiated on
concrete dead states of both backends, with a raw `setDisplayState`
argument of 3 (`VISIBLE`) and a well-formed descriptor. -/
theorem c1_witness :
    (setDisplayStateCore
        (Proxy.getDisplayState { mRequestedState := .DEAD }) 3 true).1 =
      .OWNERSHIP_LOST ∧
    (Proxy.getTargetBuffer {} { mRequestedState := .DEAD }).1 = none ∧
    (Direct.getTargetBuffer none (some 0)
        { mRequestedState := .DEAD }).1 = none :=
  ⟨(c1_dead_absorbing {} 3 true { mRequestedState := .DEAD }
      { mRequestedState := .DEAD } none (some 0)
      { bufferId := 0, memHandle := some 1 } rfl rfl).1,
   by
    have h := (c1_dead_absorbing {} 3 true { mRequestedState := .DEAD }
      { mRequestedState := .DEAD } none (some 0)
      { bufferId := 0, memHandle := some 1 } rfl rfl).2.2.2.2.1
    exact congrArg Prod.fst h,
   by
    have h := (c1_dead_absorbing {} 3 true { mRequestedState := .DEAD }
      { mRequestedState := .DEAD } none (some 0)
      { bufferId := 0, memHandle := some 1 } rfl rfl).2.2.2.2.2.2.2.1
    exact congrArg Prod.fst h⟩

end Evs
